import Mathlib

/-!
Shallow embedding of `src/textual_web/cli.py` (the `app` entry point of the
textual-web CLI) and proofs about its bootstrap behaviour.

The single source file under verification is `cli.py`.  Collaborators that
live in other modules of the repository (`GanglionClient`, the `environment`
registry, `config.load_config` / `default_config`, `identity.generate`) are
not part of the provided source; where a claim depends on them they are
modelled from the spec, with a doc comment saying so.
-/

/-- A configuration document.  The claims under verification never inspect its
contents, only whether loading produced one; we keep the raw text. -/
structure ConfigDocument where
  raw : String
deriving DecidableEq, Repr

/-- Modelled from the spec: `ConfigResolver.defaultDocument()` is pure and
never fails (`config.default_config` is not in the provided source). -/
def default_config : ConfigDocument := ⟨""⟩

/-- Failure kinds of `config.load_config`, classified exactly as `cli.py`
classifies them: `FileNotFoundError` versus any other exception (whose Python
repr we keep as a string). -/
inductive ConfigError where
  | notFound : ConfigError
  | malformed (cause : String) : ConfigError
deriving DecidableEq, Repr

/-- Session kinds: `add_terminal` registers an interactive terminal,
`add_app` registers an application. -/
inductive SessionKind where
  | terminal : SessionKind
  | application : SessionKind
deriving DecidableEq, Repr

/-- Modelled from the spec: a `SessionRegistration` carries a display name, a
launch command or shell path, and a slug identifier. -/
structure SessionRegistration where
  kind : SessionKind
  label : String
  command : String
  identifier : String
deriving DecidableEq, Repr

/-- Modelled from the spec: the `ClientOrchestrator` (`GanglionClient`) owns
an ordered collection of registered sessions; `cli.py` only ever calls
`add_terminal`, `add_app` and reads `app_count`. -/
structure GanglionClient where
  apps : List SessionRegistration
deriving DecidableEq, Repr

/-- Modelled from the spec: `pendingCount()` is the number of registered
sessions so far (realized as `GanglionClient.app_count`). -/
def GanglionClient.app_count (c : GanglionClient) : Nat :=
  c.apps.length

/-- Modelled from the spec: `registerTerminal` appends an
interactive-terminal session, with no uniqueness enforcement. -/
def GanglionClient.add_terminal (c : GanglionClient)
    (label command identifier : String) : GanglionClient :=
  ⟨c.apps ++ [⟨SessionKind.terminal, label, command, identifier⟩]⟩

/-- Modelled from the spec: `registerApplication` appends an application
session, with no uniqueness enforcement. -/
def GanglionClient.add_app (c : GanglionClient)
    (label command identifier : String) : GanglionClient :=
  ⟨c.apps ++ [⟨SessionKind.application, label, command, identifier⟩]⟩

/-- Result of `try: import uvloop`: the module loads, the import raises
`ImportError` (the only exception `cli.py` catches there), or the import
raises some other exception. -/
inductive UvloopProbe where
  | available : UvloopProbe
  | importError : UvloopProbe
  | otherFailure (cause : String) : UvloopProbe
deriving DecidableEq, Repr

/-- Observable effects of one invocation of `app`, in program order. -/
inductive Event where
  | getEnvironment (name : String) : Event
  | signupFlow (envName : String) : Event
  | welcomeFlow : Event
  | printDisclaimer : Event
  | logStartupInfo : Event
  | logDebugWarning : Event
  | loadConfigCall (path : String) : Event
  | logNoConfigInfo : Event
  | logCritical (msg : String) : Event
  | errorPrint (msg : String) : Event
  | debugPrintConfig : Event
  | constructClient : Event
  | addTerminal (label command identifier : String) : Event
  | addApp (label command identifier : String) : Event
  | uvloopInstall : Event
  | asyncioRun : Event
  | runnerRun : Event
deriving DecidableEq, Repr

/-- How the invocation of `app` ends: a normal return, or an uncaught
exception propagating out of the entry point. -/
inductive Outcome where
  | returned : Outcome
  | raised (cause : String) : Outcome
deriving DecidableEq, Repr

/-- Everything external that one invocation of `app` consumes:
the config loader, the `SHELL` environment variable, the word produced by
`identity.generate()`, the result of probing `uvloop`, whether
`sys.version_info >= (3, 11)`, the `constants.DEBUG` flag, and the sessions
the `GanglionClient` constructor itself registers from the config document
(modelled from the spec as an abstract function, since `GanglionClient` is
not in the provided source). -/
structure World where
  loadConfig : String → Except ConfigError ConfigDocument
  shellVar : Option String
  identityWord : String
  uvloop : UvloopProbe
  pyAtLeast311 : Bool
  debug : Bool
  clientInit : ConfigDocument → List SessionRegistration

/-- The parsed command-line flags of one invocation (`InvocationIntent`). -/
structure Invocation where
  config : Option String
  environment : String
  terminal : Bool
  apiKey : Option String
  signup : Bool
  welcome : Bool

/-- Embeds Python `str.lower()` on the basic-latin range: lower-case every
character. -/
def strToLower (s : String) : String :=
  ⟨s.data.map Char.toLower⟩

/-- The diagnostic printed to the error console when loading the config
raises a non-`FileNotFoundError` exception: `cli.py` interpolates the
absolute path and the repr of the error (Python quoting elided). -/
def configFailMessage (path cause : String) : String :=
  "Failed to load config from " ++ path ++ "; " ++ cause

/-- Result of one invocation of `app`: the trace of observable effects, the
final client (when one was constructed), and how the call ended. -/
structure AppResult where
  events : List Event
  client : Option GanglionClient
  outcome : Outcome
deriving Repr

/-- Events emitted between the welcome check and config resolution
(`print_disclaimer`, the version/environment log lines, and the DEBUG
warning), lines 113-118 of `cli.py`. -/
def startupEvents (w : World) : List Event :=
  [Event.printDisclaimer, Event.logStartupInfo] ++
    (if w.debug then [Event.logDebugWarning] else [])

/-- Lines 135-138 of `cli.py`: under DEBUG the resolved config is printed. -/
def debugConfigEvents (w : World) : List Event :=
  if w.debug then [Event.debugPrintConfig] else []

/-- Line 146 of `cli.py`: `os.environ.get("SHELL", "bin/sh")`. -/
def terminalShell (w : World) : String :=
  w.shellVar.getD "bin/sh"

/-- Line 146 of `cli.py`: `identity.generate().lower()`. -/
def terminalSlug (w : World) : String :=
  strToLower w.identityWord

/-- The client state after lines 140-147 of `cli.py`: constructed from the
config, then a terminal session added when the `terminal` flag is set. -/
def clientAfterTerminal (inv : Invocation) (w : World)
    (cfg : ConfigDocument) : GanglionClient :=
  if inv.terminal then
    GanglionClient.add_terminal ⟨w.clientInit cfg⟩ "Terminal"
      (terminalShell w) (terminalSlug w)
  else ⟨w.clientInit cfg⟩

/-- The registration events of lines 144-147 of `cli.py`. -/
def terminalEvents (inv : Invocation) (w : World) : List Event :=
  if inv.terminal then
    [Event.addTerminal "Terminal" (terminalShell w) (terminalSlug w)]
  else []

/-- The client state after the default-seeding step, lines 149-150 of
`cli.py`: `if not ganglion_client.app_count: ganglion_client.add_app(...)`. -/
def finalClient (inv : Invocation) (w : World) (cfg : ConfigDocument) :
    GanglionClient :=
  if (clientAfterTerminal inv w cfg).app_count = 0 then
    (clientAfterTerminal inv w cfg).add_app "Welcome" "textual-web --welcome"
      "welcome"
  else clientAfterTerminal inv w cfg

/-- The registration events of the default-seeding step (lines 149-150). -/
def seedEvents (inv : Invocation) (w : World) (cfg : ConfigDocument) :
    List Event :=
  if (clientAfterTerminal inv w cfg).app_count = 0 then
    [Event.addApp "Welcome" "textual-web --welcome" "welcome"]
  else []

/-- The runtime-selection events of lines 152-162 of `cli.py`: `import
uvloop` absent (`ImportError`) gives `asyncio.run` directly; present gives
`asyncio.Runner` on Python >= 3.11 and `uvloop.install()` + `asyncio.run`
otherwise; an import failure other than `ImportError` is uncaught, so no
runtime is started. -/
def runtimeEvents (w : World) : List Event :=
  match w.uvloop with
  | UvloopProbe.importError => [Event.asyncioRun]
  | UvloopProbe.available =>
      if w.pyAtLeast311 then [Event.runnerRun]
      else [Event.uvloopInstall, Event.asyncioRun]
  | UvloopProbe.otherFailure _ => []

/-- How the tail of the normal run ends: a non-`ImportError` exception from
`import uvloop` propagates; every other path returns normally. -/
def runtimeOutcome (w : World) : Outcome :=
  match w.uvloop with
  | UvloopProbe.otherFailure cause => Outcome.raised cause
  | _ => Outcome.returned

/-- The tail of the normal run, lines 135-162 of `cli.py`: optional debug
print of the config, client construction, optional terminal registration,
default-app seeding when `app_count` is zero, and runtime selection. -/
def runWithConfig (inv : Invocation) (w : World) (cfg : ConfigDocument)
    (pre : List Event) : AppResult :=
  ⟨pre ++ debugConfigEvents w ++ [Event.constructClient] ++
      terminalEvents inv w ++ seedEvents inv w cfg ++ runtimeEvents w,
    some (finalClient inv w cfg), runtimeOutcome w⟩

/-- Shallow embedding of the `app` entry point of `cli.py` (lines 93-162):
environment resolution, the signup and welcome early returns, config
resolution with its two failure branches, and the normal run. -/
def app (inv : Invocation) (w : World) : AppResult :=
  if inv.signup then
    ⟨[Event.getEnvironment inv.environment,
      Event.signupFlow inv.environment], none, Outcome.returned⟩
  else if inv.welcome then
    ⟨[Event.getEnvironment inv.environment, Event.welcomeFlow], none,
      Outcome.returned⟩
  else
    let pre := [Event.getEnvironment inv.environment] ++ startupEvents w
    match inv.config with
    | some cfgPath =>
        let pre := pre ++ [Event.loadConfigCall cfgPath]
        match w.loadConfig cfgPath with
        | Except.error ConfigError.notFound =>
            ⟨pre ++ [Event.logCritical "Config not found"], none,
              Outcome.returned⟩
        | Except.error (ConfigError.malformed cause) =>
            ⟨pre ++ [Event.errorPrint (configFailMessage cfgPath cause)],
              none, Outcome.returned⟩
        | Except.ok cfg => runWithConfig inv w cfg pre
    | none => runWithConfig inv w default_config (pre ++ [Event.logNoConfigInfo])

/-- The events of the normal-run path that precede config resolution and
the config-phase log line itself (lines 97-133 of `cli.py`). -/
def preEvents (inv : Invocation) (w : World) : List Event :=
  [Event.getEnvironment inv.environment] ++ startupEvents w ++
    (match inv.config with
     | some p => [Event.loadConfigCall p]
     | none => [Event.logNoConfigInfo])

/-- The config document the normal run proceeds with: the default document
when no `--config` was given, the loaded one on success, `none` when the
load failed (then the run stops before constructing a client). -/
def usedConfig (inv : Invocation) (w : World) : Option ConfigDocument :=
  match inv.config with
  | none => some default_config
  | some p =>
      match w.loadConfig p with
      | Except.ok cfg => some cfg
      | Except.error _ => none

/-- Is this event an invocation of the signup flow? -/
def Event.isSignupFlow : Event → Bool
  | Event.signupFlow _ => true
  | _ => false

/-- Is this event part of configuration resolution (loading a config file
or electing the defaults)? -/
def Event.isConfigResolution : Event → Bool
  | Event.loadConfigCall _ => true
  | Event.logNoConfigInfo => true
  | _ => false

/-- Is this event a session registration (`add_terminal` or `add_app`)? -/
def Event.isSessionRegistration : Event → Bool
  | Event.addTerminal _ _ _ => true
  | Event.addApp _ _ _ => true
  | _ => false

/-- Is this event a terminal-session registration? -/
def Event.isTerminalReg : Event → Bool
  | Event.addTerminal _ _ _ => true
  | _ => false

/-- Is this event part of runtime startup (`uvloop.install`, `asyncio.run`
or `asyncio.Runner`)? -/
def Event.isRuntimeStart : Event → Bool
  | Event.uvloopInstall => true
  | Event.asyncioRun => true
  | Event.runnerRun => true
  | _ => false

/-- Does this event drive the client's `run()` coroutine (`asyncio.run` or
`runner.run`)? -/
def Event.isRunCall : Event → Bool
  | Event.asyncioRun => true
  | Event.runnerRun => true
  | _ => false

/-- Is this event the injection of the default example application
(`add_app("Welcome", "textual-web --welcome", "welcome")`)? -/
def Event.isDefaultSeed : Event → Bool
  | Event.addApp l c i =>
      l == "Welcome" && c == "textual-web --welcome" && i == "welcome"
  | _ => false

/-- Is this event a critical log line? -/
def Event.isLogCritical : Event → Bool
  | Event.logCritical _ => true
  | _ => false

/-- Is this event a diagnostic printed to the error console? -/
def Event.isErrorPrint : Event → Bool
  | Event.errorPrint _ => true
  | _ => false

/-- Is this event user-facing error output (critical log or error-console
diagnostic)? -/
def Event.isErrorOutput : Event → Bool
  | Event.logCritical _ => true
  | Event.errorPrint _ => true
  | _ => false

/-- Modelled from the spec: an environment profile resolved to connection
parameters (`environment.py` is not in the provided source; the endpoint
strings are placeholders). -/
structure EnvironmentDescriptor where
  name : String
  endpoint : String
deriving DecidableEq, Repr

/-- Modelled from the spec: the closed registry of environment profiles
(`ENVIRONMENTS` in `environment.py`); `cli.py` names the keys prod, dev and
local in the `--environment` help text. -/
def ENVIRONMENTS : List (String × EnvironmentDescriptor) :=
  [("prod", ⟨"prod", "endpoint-prod"⟩),
   ("dev", ⟨"dev", "endpoint-dev"⟩),
   ("local", ⟨"local", "endpoint-local"⟩)]

/-- Modelled from the spec: `get_environment` looks the name up in the
registry. -/
def get_environment (name : String) : Option EnvironmentDescriptor :=
  (ENVIRONMENTS.find? (fun e => e.fst == name)).map Prod.snd

/-- The CLI option layer: `click.Choice(list(ENVIRONMENTS))` accepts a name
exactly when it is a key of the registry (line 67 of `cli.py`). -/
def cliAcceptsEnvironment (name : String) : Bool :=
  ENVIRONMENTS.any (fun e => e.fst == name)

/-- A concrete world for witnesses: config always loads, `SHELL` unset,
uvloop absent, Python 3.11, DEBUG off, client constructed empty. -/
def wBase : World :=
  ⟨fun _ => Except.ok ⟨""⟩, none, "abc", UvloopProbe.importError, true,
    false, fun _ => []⟩

/-- A concrete invocation for witnesses: no flags, default environment. -/
def invBase : Invocation :=
  ⟨none, "prod", false, none, false, false⟩

/-- A concrete invocation with both `--signup` and `--welcome` set. -/
def invSignupWelcome : Invocation :=
  ⟨none, "prod", false, none, true, true⟩

/-- A concrete invocation with only `--welcome` set. -/
def invWelcome : Invocation :=
  ⟨none, "prod", false, none, false, true⟩

/-- A concrete invocation with only `--terminal` set. -/
def invTerminal : Invocation :=
  ⟨none, "prod", true, none, false, false⟩

/-- A concrete invocation with `--config demo.toml`. -/
def invConfig : Invocation :=
  ⟨some "demo.toml", "prod", false, none, false, false⟩

/-- A world whose config loader always reports `FileNotFoundError`. -/
def wNotFound : World :=
  ⟨fun _ => Except.error ConfigError.notFound, none, "abc",
    UvloopProbe.importError, true, false, fun _ => []⟩

/-- A world whose config loader always reports a parse failure. -/
def wMalformed : World :=
  ⟨fun _ => Except.error (ConfigError.malformed "TomlDecodeError"), none,
    "abc", UvloopProbe.importError, true, false, fun _ => []⟩

/-- A world where loading uvloop raises a non-`ImportError` exception. -/
def wOtherFailure : World :=
  ⟨fun _ => Except.ok ⟨""⟩, none, "abc", UvloopProbe.otherFailure "boom",
    true, false, fun _ => []⟩

/-- A world where uvloop is present and Python is at least 3.11. -/
def wUvloopNew : World :=
  ⟨fun _ => Except.ok ⟨""⟩, none, "abc", UvloopProbe.available, true,
    false, fun _ => []⟩

/-- A world where uvloop is present and Python is older than 3.11. -/
def wUvloopOld : World :=
  ⟨fun _ => Except.ok ⟨""⟩, none, "abc", UvloopProbe.available, false,
    false, fun _ => []⟩

/-! Helper lemmas shared by the claim theorems. -/

/-- Lower-casing a character never yields an upper-case character. -/
theorem char_toLower_not_upper (c : Char) : (Char.toLower c).isUpper = false := by
  have e65 : (UInt32.toBitVec 65).toNat = 65 := rfl
  have e90 : (UInt32.toBitVec 90).toNat = 90 := rfl
  have ev : ∀ d : Char, d.val.toBitVec.toNat = d.toNat := fun _ => rfl
  rw [Char.toLower]
  split
  next h =>
    obtain ⟨h1, h2⟩ := h
    rw [Char.ofNat, dif_pos]
    · simp only [Char.isUpper, Char.ofNatAux, ge_iff_le, UInt32.le_def,
        BitVec.le_def, BitVec.toNat_ofNatLt, e65, e90,
        Bool.and_eq_false_iff, decide_eq_false_iff_not]
      omega
    · exact Or.inl (by omega)
  next h =>
    simp only [Char.isUpper, ge_iff_le, UInt32.le_def, BitVec.le_def, e65,
      e90, ev, Bool.and_eq_false_iff, decide_eq_false_iff_not]
    omega

/-- On the normal-run path, once config resolution succeeds, `app` is the
tail `runWithConfig` run after the pre-config events. -/
theorem app_normal_eq (inv : Invocation) (w : World) (cfg : ConfigDocument)
    (hs : inv.signup = false) (hw : inv.welcome = false)
    (hc : usedConfig inv w = some cfg) :
    app inv w = runWithConfig inv w cfg (preEvents inv w) := by
  unfold usedConfig at hc
  unfold app preEvents
  rw [hs, hw]
  simp only [Bool.false_eq_true, if_false]
  cases hcfg : inv.config with
  | none =>
      rw [hcfg] at hc
      simp only [Option.some.injEq] at hc
      subst hc
      rfl
  | some p =>
      rw [hcfg] at hc
      dsimp only at hc ⊢
      cases hload : w.loadConfig p with
      | ok c =>
          rw [hload] at hc
          dsimp only at hc
          simp only [Option.some.injEq] at hc
          subst hc
          rfl
      | error e =>
          rw [hload] at hc
          dsimp only at hc
          simp at hc

/-- When the config file is missing, `app` logs a critical message after the
pre-config events and returns. -/
theorem app_notFound_eq (inv : Invocation) (w : World) (p : String)
    (hs : inv.signup = false) (hw : inv.welcome = false)
    (hp : inv.config = some p)
    (hload : w.loadConfig p = Except.error ConfigError.notFound) :
    app inv w = ⟨preEvents inv w ++ [Event.logCritical "Config not found"],
      none, Outcome.returned⟩ := by
  unfold app preEvents
  rw [hs, hw]
  simp only [Bool.false_eq_true, if_false]
  rw [hp]
  dsimp only
  rw [hload]

/-- When the config file fails to load for any other reason, `app` prints a
diagnostic to the error console after the pre-config events and returns. -/
theorem app_malformed_eq (inv : Invocation) (w : World) (p cause : String)
    (hs : inv.signup = false) (hw : inv.welcome = false)
    (hp : inv.config = some p)
    (hload : w.loadConfig p = Except.error (ConfigError.malformed cause)) :
    app inv w = ⟨preEvents inv w ++
        [Event.errorPrint (configFailMessage p cause)],
      none, Outcome.returned⟩ := by
  unfold app preEvents
  rw [hs, hw]
  simp only [Bool.false_eq_true, if_false]
  rw [hp]
  dsimp only
  rw [hload]

/-- Generic count of pre-config events: zero for any predicate false on all
administrative event kinds. -/
theorem countP_preEvents (inv : Invocation) (w : World) (q : Event → Bool)
    (hg : ∀ n, q (Event.getEnvironment n) = false)
    (h1 : q Event.printDisclaimer = false)
    (h2 : q Event.logStartupInfo = false)
    (h3 : q Event.logDebugWarning = false)
    (hl : ∀ p, q (Event.loadConfigCall p) = false)
    (hn : q Event.logNoConfigInfo = false) :
    (preEvents inv w).countP q = 0 := by
  unfold preEvents startupEvents
  cases inv.config <;> cases w.debug <;>
    simp [List.countP_append, List.countP_cons, *]

/-- Generic count over the normal-run tail: a predicate false on every event
kind the tail can emit counts only what the prefix counts. -/
theorem countP_runWithConfig (inv : Invocation) (w : World)
    (cfg : ConfigDocument) (pre : List Event) (q : Event → Bool)
    (hd : q Event.debugPrintConfig = false)
    (hc : q Event.constructClient = false)
    (ht : ∀ a b c, q (Event.addTerminal a b c) = false)
    (ha : ∀ a b c, q (Event.addApp a b c) = false)
    (hu : q Event.uvloopInstall = false)
    (h1 : q Event.asyncioRun = false)
    (h2 : q Event.runnerRun = false) :
    (runWithConfig inv w cfg pre).events.countP q = pre.countP q := by
  unfold runWithConfig debugConfigEvents terminalEvents seedEvents
    runtimeEvents
  cases w.debug <;> cases inv.terminal <;> cases w.uvloop <;>
    cases w.pyAtLeast311 <;>
      by_cases hz : (clientAfterTerminal inv w cfg).app_count = 0 <;>
        simp [List.countP_append, List.countP_cons, *]

/-! The claim theorems. -/

/-- On the normal-run path `app` takes exactly one of three shapes: the
config-not-found stop, the config-malformed stop, or the full tail run. -/
theorem app_events_decompose (inv : Invocation) (w : World)
    (hs : inv.signup = false) (hw : inv.welcome = false) :
    (∃ p, inv.config = some p ∧
        w.loadConfig p = Except.error ConfigError.notFound ∧
        app inv w = ⟨preEvents inv w ++ [Event.logCritical "Config not found"],
          none, Outcome.returned⟩) ∨
    (∃ p cause, inv.config = some p ∧
        w.loadConfig p = Except.error (ConfigError.malformed cause) ∧
        app inv w = ⟨preEvents inv w ++
            [Event.errorPrint (configFailMessage p cause)],
          none, Outcome.returned⟩) ∨
    (∃ cfg, usedConfig inv w = some cfg ∧
        app inv w = runWithConfig inv w cfg (preEvents inv w)) := by
  cases hcfg : inv.config with
  | none =>
      right; right
      exact ⟨default_config, by simp [usedConfig, hcfg],
        app_normal_eq inv w default_config hs hw (by simp [usedConfig, hcfg])⟩
  | some p =>
      cases hload : w.loadConfig p with
      | ok c =>
          right; right
          refine ⟨c, ?_, app_normal_eq inv w c hs hw ?_⟩ <;>
            simp [usedConfig, hcfg, hload]
      | error e =>
          cases e with
          | notFound =>
              left
              exact ⟨p, rfl, hload, app_notFound_eq inv w p hs hw hcfg hload⟩
          | malformed cause =>
              right; left
              exact ⟨p, cause, rfl, hload,
                app_malformed_eq inv w p cause hs hw hcfg hload⟩

/-- An event whose equality test counts zero occurrences is not a member. -/
theorem not_mem_of_countP_eq_zero {l : List Event} {e : Event}
    (h : l.countP (fun x => x == e) = 0) : e ∉ l := by
  intro hm
  have := (List.countP_eq_zero.mp h) e hm
  simp at this

/-- Claim C1: the three entry branches are mutually exclusive and evaluated
in the fixed priority order signup > welcome > normal-run.  With the signup
flag set only the signup flow executes (regardless of the welcome flag) and
the function returns; else with the welcome flag set only the welcome flow
executes and config resolution, client construction, session registration
and runtime startup are never reached; only in the remaining case does the
normal run proceed (no signup or welcome flow appears in its trace). -/
theorem c1_entry_branch_priority (inv : Invocation) (w : World) :
    (inv.signup = true →
      (app inv w).events =
        [Event.getEnvironment inv.environment,
         Event.signupFlow inv.environment] ∧
      (app inv w).outcome = Outcome.returned ∧
      (app inv w).client = none ∧
      Event.welcomeFlow ∉ (app inv w).events ∧
      (app inv w).events.countP Event.isConfigResolution = 0 ∧
      Event.constructClient ∉ (app inv w).events ∧
      (app inv w).events.countP Event.isSessionRegistration = 0 ∧
      (app inv w).events.countP Event.isRuntimeStart = 0) ∧
    (inv.signup = false → inv.welcome = true →
      (app inv w).events =
        [Event.getEnvironment inv.environment, Event.welcomeFlow] ∧
      (app inv w).outcome = Outcome.returned ∧
      (app inv w).client = none ∧
      (app inv w).events.countP Event.isSignupFlow = 0 ∧
      (app inv w).events.countP Event.isConfigResolution = 0 ∧
      Event.constructClient ∉ (app inv w).events ∧
      (app inv w).events.countP Event.isSessionRegistration = 0 ∧
      (app inv w).events.countP Event.isRuntimeStart = 0) ∧
    (inv.signup = false → inv.welcome = false →
      (app inv w).events.countP Event.isSignupFlow = 0 ∧
      Event.welcomeFlow ∉ (app inv w).events) := by
  refine ⟨fun hs => ?_, fun hs hw => ?_, fun hs hw => ?_⟩
  · simp [app, hs, Event.isConfigResolution, Event.isSessionRegistration,
      Event.isRuntimeStart]
  · simp [app, hs, hw, Event.isSignupFlow, Event.isConfigResolution,
      Event.isSessionRegistration, Event.isRuntimeStart]
  · rcases app_events_decompose inv w hs hw with
      ⟨p, hp, hload, hev⟩ | ⟨p, cause, hp, hload, hev⟩ | ⟨cfg, hc, hev⟩
    · rw [hev]
      refine ⟨?_, not_mem_of_countP_eq_zero ?_⟩ <;>
        rw [List.countP_append,
          countP_preEvents inv w _ (fun _ => rfl) rfl rfl rfl
            (fun _ => rfl) rfl] <;> simp [Event.isSignupFlow]
    · rw [hev]
      refine ⟨?_, not_mem_of_countP_eq_zero ?_⟩ <;>
        rw [List.countP_append,
          countP_preEvents inv w _ (fun _ => rfl) rfl rfl rfl
            (fun _ => rfl) rfl] <;> simp [Event.isSignupFlow]
    · rw [hev]
      refine ⟨?_, not_mem_of_countP_eq_zero ?_⟩ <;>
        rw [countP_runWithConfig inv w cfg _ _ rfl rfl (fun _ _ _ => rfl)
            (fun _ _ _ => rfl) rfl rfl rfl,
          countP_preEvents inv w _ (fun _ => rfl) rfl rfl rfl
            (fun _ => rfl) rfl]

/-- Witness for C1 at a concrete invocation with both `--signup` and
`--welcome` set: only the signup flow runs. -/
theorem c1_entry_branch_priority_witness :
    Event.welcomeFlow ∉ (app invSignupWelcome wBase).events ∧
    Event.signupFlow "prod" ∈ (app invSignupWelcome wBase).events ∧
    (app invSignupWelcome wBase).outcome = Outcome.returned := by
  have h := (c1_entry_branch_priority invSignupWelcome wBase).1 rfl
  exact ⟨h.2.2.2.1, by rw [h.1]; decide, h.2.1⟩

/-- Generic count of the DEBUG config-print events. -/
theorem countP_debugConfigEvents (w : World) (q : Event → Bool)
    (h : q Event.debugPrintConfig = false) :
    (debugConfigEvents w).countP q = 0 := by
  unfold debugConfigEvents
  cases w.debug <;> simp [h]

/-- Generic count of the terminal-registration events. -/
theorem countP_terminalEvents (inv : Invocation) (w : World)
    (q : Event → Bool)
    (h : ∀ a b c, q (Event.addTerminal a b c) = false) :
    (terminalEvents inv w).countP q = 0 := by
  unfold terminalEvents
  cases inv.terminal <;> simp [h]

/-- Generic count of the runtime-selection events. -/
theorem countP_runtimeEvents (w : World) (q : Event → Bool)
    (h1 : q Event.uvloopInstall = false)
    (h2 : q Event.asyncioRun = false)
    (h3 : q Event.runnerRun = false) :
    (runtimeEvents w).countP q = 0 := by
  unfold runtimeEvents
  cases w.uvloop <;> cases w.pyAtLeast311 <;> simp [h1, h2, h3]

/-- With no session registered before the seeding step, the default example
application is injected. -/
theorem seedEvents_of_zero (inv : Invocation) (w : World)
    (cfg : ConfigDocument)
    (hz : (clientAfterTerminal inv w cfg).app_count = 0) :
    seedEvents inv w cfg =
      [Event.addApp "Welcome" "textual-web --welcome" "welcome"] := by
  unfold seedEvents
  rw [if_pos hz]

/-- With a session already registered before the seeding step, no default
application is injected. -/
theorem seedEvents_of_ne (inv : Invocation) (w : World)
    (cfg : ConfigDocument)
    (hz : (clientAfterTerminal inv w cfg).app_count ≠ 0) :
    seedEvents inv w cfg = [] := by
  unfold seedEvents
  rw [if_neg hz]

/-- Claim C2: on the normal-run path, immediately before the default-seeding
step the bootstrap checks `app_count`; when it is zero exactly one default
example application session is registered (never more than one), and when it
is nonzero no default session is added. -/
theorem c2_default_seeding (inv : Invocation) (w : World)
    (cfg : ConfigDocument) (hs : inv.signup = false)
    (hw : inv.welcome = false) (hc : usedConfig inv w = some cfg) :
    ((clientAfterTerminal inv w cfg).app_count = 0 →
      (app inv w).events.countP Event.isDefaultSeed = 1 ∧
      (finalClient inv w cfg).apps = (clientAfterTerminal inv w cfg).apps ++
        [⟨SessionKind.application, "Welcome", "textual-web --welcome",
          "welcome"⟩]) ∧
    ((clientAfterTerminal inv w cfg).app_count ≠ 0 →
      (app inv w).events.countP Event.isDefaultSeed = 0 ∧
      finalClient inv w cfg = clientAfterTerminal inv w cfg) ∧
    (app inv w).client = some (finalClient inv w cfg) := by
  have happ := app_normal_eq inv w cfg hs hw hc
  refine ⟨fun hz => ⟨?_, ?_⟩, fun hz => ⟨?_, ?_⟩, ?_⟩
  · rw [happ]
    simp only [runWithConfig, List.countP_append]
    rw [countP_preEvents inv w _ (fun _ => rfl) rfl rfl rfl
        (fun _ => rfl) rfl,
      countP_debugConfigEvents w _ rfl,
      countP_terminalEvents inv w _ (fun _ _ _ => rfl),
      countP_runtimeEvents w _ rfl rfl rfl,
      seedEvents_of_zero inv w cfg hz]
    simp [Event.isDefaultSeed]
  · unfold finalClient
    rw [if_pos hz]
    rfl
  · rw [happ]
    simp only [runWithConfig, List.countP_append]
    rw [countP_preEvents inv w _ (fun _ => rfl) rfl rfl rfl
        (fun _ => rfl) rfl,
      countP_debugConfigEvents w _ rfl,
      countP_terminalEvents inv w _ (fun _ _ _ => rfl),
      countP_runtimeEvents w _ rfl rfl rfl,
      seedEvents_of_ne inv w cfg hz]
    simp [Event.isDefaultSeed]
  · unfold finalClient
    rw [if_neg hz]
  · rw [happ]
    rfl

/-- Witness for C2: with no config flag, no terminal flag and an empty
client, exactly one default app session ends up registered. -/
theorem c2_default_seeding_witness :
    (app invBase wBase).events.countP Event.isDefaultSeed = 1 ∧
    (finalClient invBase wBase default_config).apps =
      [⟨SessionKind.application, "Welcome", "textual-web --welcome",
        "welcome"⟩] := by
  have h := (c2_default_seeding invBase wBase default_config rfl rfl
    rfl).1 (by decide)
  exact ⟨h.1, by rw [h.2]; rfl⟩

/-- Claim C3: on every normal-run invocation with the terminal flag set,
after the terminal session is registered the pending-session count
(`GanglionClient.app_count`, the quantity the seeding step consults) is at
least 1, so the default example application is never injected. -/
theorem c3_terminal_blocks_default_seed (inv : Invocation) (w : World)
    (cfg : ConfigDocument) (hs : inv.signup = false)
    (hw : inv.welcome = false) (hc : usedConfig inv w = some cfg)
    (ht : inv.terminal = true) :
    1 ≤ (clientAfterTerminal inv w cfg).app_count ∧
    (app inv w).events.countP Event.isDefaultSeed = 0 ∧
    finalClient inv w cfg = clientAfterTerminal inv w cfg := by
  have h1 : 1 ≤ (clientAfterTerminal inv w cfg).app_count := by
    unfold clientAfterTerminal
    rw [if_pos ht]
    simp [GanglionClient.add_terminal, GanglionClient.app_count]
  have hz : (clientAfterTerminal inv w cfg).app_count ≠ 0 := by omega
  refine ⟨h1, ?_, ?_⟩
  · rw [app_normal_eq inv w cfg hs hw hc]
    simp only [runWithConfig, List.countP_append]
    rw [countP_preEvents inv w _ (fun _ => rfl) rfl rfl rfl
        (fun _ => rfl) rfl,
      countP_debugConfigEvents w _ rfl,
      countP_terminalEvents inv w _ (fun _ _ _ => rfl),
      countP_runtimeEvents w _ rfl rfl rfl,
      seedEvents_of_ne inv w cfg hz]
    simp [Event.isDefaultSeed]
  · unfold finalClient
    rw [if_neg hz]

/-- Witness for C3 at the concrete `--terminal` invocation. -/
theorem c3_terminal_blocks_default_seed_witness :
    1 ≤ (clientAfterTerminal invTerminal wBase default_config).app_count ∧
    (app invTerminal wBase).events.countP Event.isDefaultSeed = 0 := by
  have h := c3_terminal_blocks_default_seed invTerminal wBase
    default_config rfl rfl rfl rfl
  exact ⟨h.1, h.2.1⟩

/-- Claim C4: when a config path is supplied and loading fails, the failure
is classified into exactly two kinds with distinct handling: file-not-found
logs a critical message (no error-console diagnostic) and returns; any other
failure prints a diagnostic naming the path and the underlying cause to the
error stream (no critical log) and returns.  In both cases no exception
escapes, no client is constructed, no session is registered and no runtime
is started. -/
theorem c4_config_failure_handling (inv : Invocation) (w : World)
    (p : String) (hs : inv.signup = false) (hw : inv.welcome = false)
    (hp : inv.config = some p) :
    (w.loadConfig p = Except.error ConfigError.notFound →
      (app inv w).events =
        preEvents inv w ++ [Event.logCritical "Config not found"] ∧
      (app inv w).events.countP Event.isErrorPrint = 0 ∧
      (app inv w).outcome = Outcome.returned ∧
      (app inv w).client = none ∧
      Event.constructClient ∉ (app inv w).events ∧
      (app inv w).events.countP Event.isSessionRegistration = 0 ∧
      (app inv w).events.countP Event.isRuntimeStart = 0) ∧
    (∀ cause, w.loadConfig p = Except.error (ConfigError.malformed cause) →
      (app inv w).events =
        preEvents inv w ++ [Event.errorPrint (configFailMessage p cause)] ∧
      (∃ s t, configFailMessage p cause = s ++ p ++ t) ∧
      (∃ s t, configFailMessage p cause = s ++ cause ++ t) ∧
      (app inv w).events.countP Event.isLogCritical = 0 ∧
      (app inv w).outcome = Outcome.returned ∧
      (app inv w).client = none ∧
      Event.constructClient ∉ (app inv w).events ∧
      (app inv w).events.countP Event.isSessionRegistration = 0 ∧
      (app inv w).events.countP Event.isRuntimeStart = 0) := by
  constructor
  · intro hload
    rw [app_notFound_eq inv w p hs hw hp hload]
    refine ⟨rfl, ?_, rfl, rfl, not_mem_of_countP_eq_zero ?_, ?_, ?_⟩ <;>
      · rw [List.countP_append,
          countP_preEvents inv w _ (fun _ => rfl) rfl rfl rfl
            (fun _ => rfl) rfl]
        simp [Event.isErrorPrint, Event.isSessionRegistration,
          Event.isRuntimeStart]
  · intro cause hload
    rw [app_malformed_eq inv w p cause hs hw hp hload]
    refine ⟨rfl, ?_, ?_, ?_, rfl, rfl, not_mem_of_countP_eq_zero ?_,
        ?_, ?_⟩
    · exact ⟨"Failed to load config from ", "; " ++ cause, by
        simp [configFailMessage, String.append_assoc]⟩
    · exact ⟨"Failed to load config from " ++ p ++ "; ", "", by
        simp [configFailMessage, String.append_empty,
          String.append_assoc]⟩
    all_goals
      rw [List.countP_append,
        countP_preEvents inv w _ (fun _ => rfl) rfl rfl rfl
          (fun _ => rfl) rfl]
      simp [Event.isLogCritical, Event.isSessionRegistration,
        Event.isRuntimeStart]

/-- Witness for C4: concrete invocations against a missing and a malformed
config file. -/
theorem c4_config_failure_handling_witness :
    (app invConfig wNotFound).events.countP Event.isErrorPrint = 0 ∧
    (app invConfig wNotFound).outcome = Outcome.returned ∧
    (app invConfig wNotFound).client = none ∧
    (app invConfig wMalformed).events =
      preEvents invConfig wMalformed ++
        [Event.errorPrint
          (configFailMessage "demo.toml" "TomlDecodeError")] ∧
    (app invConfig wMalformed).client = none := by
  have h1 := (c4_config_failure_handling invConfig wNotFound "demo.toml"
    rfl rfl rfl).1 rfl
  have h2 := (c4_config_failure_handling invConfig wMalformed "demo.toml"
    rfl rfl rfl).2 "TomlDecodeError" rfl
  exact ⟨h1.2.1, h1.2.2.1, h1.2.2.2.1, h2.1, h2.2.2.2.2.2.1⟩

/-- Generic count of the default-seeding events. -/
theorem countP_seedEvents (inv : Invocation) (w : World)
    (cfg : ConfigDocument) (q : Event → Bool)
    (h : ∀ a b c, q (Event.addApp a b c) = false) :
    (seedEvents inv w cfg).countP q = 0 := by
  unfold seedEvents
  split <;> simp [h]

/-- When the uvloop probe does not raise a foreign exception, exactly one
`run()`-driving call appears among the runtime-selection events. -/
theorem countP_runtimeEvents_isRunCall (w : World)
    (hprobe : ∀ cause, w.uvloop ≠ UvloopProbe.otherFailure cause) :
    (runtimeEvents w).countP Event.isRunCall = 1 := by
  unfold runtimeEvents
  cases hu : w.uvloop with
  | importError => simp [Event.isRunCall]
  | available => cases w.pyAtLeast311 <;> simp [Event.isRunCall]
  | otherFailure c => exact absurd hu (hprobe c)

/-- When the uvloop probe does not raise a foreign exception, the normal-run
tail returns normally. -/
theorem runtimeOutcome_returned (w : World)
    (hprobe : ∀ cause, w.uvloop ≠ UvloopProbe.otherFailure cause) :
    runtimeOutcome w = Outcome.returned := by
  unfold runtimeOutcome
  cases hu : w.uvloop with
  | importError => rfl
  | available => rfl
  | otherFailure c => exact absurd hu (hprobe c)

/-- Claim C5: on every normal-run invocation (whose uvloop probe either
succeeds or raises `ImportError`) exactly one of the three runtime-startup
branches executes and `run()` is driven exactly once: no uvloop means
`asyncio.run` directly; uvloop on Python >= 3.11 means an `asyncio.Runner`
built with the uvloop loop factory; uvloop on an older Python means
`uvloop.install()` followed by `asyncio.run`. -/
theorem c5_runtime_selection (inv : Invocation) (w : World)
    (cfg : ConfigDocument) (hs : inv.signup = false)
    (hw : inv.welcome = false) (hc : usedConfig inv w = some cfg)
    (hprobe : ∀ cause, w.uvloop ≠ UvloopProbe.otherFailure cause) :
    (app inv w).events =
      preEvents inv w ++ debugConfigEvents w ++ [Event.constructClient] ++
        terminalEvents inv w ++ seedEvents inv w cfg ++ runtimeEvents w ∧
    (app inv w).events.countP Event.isRunCall = 1 ∧
    (preEvents inv w ++ debugConfigEvents w ++ [Event.constructClient] ++
        terminalEvents inv w ++ seedEvents inv w cfg).countP
      Event.isRuntimeStart = 0 ∧
    (app inv w).outcome = Outcome.returned ∧
    (w.uvloop = UvloopProbe.importError →
      runtimeEvents w = [Event.asyncioRun]) ∧
    (w.uvloop = UvloopProbe.available → w.pyAtLeast311 = true →
      runtimeEvents w = [Event.runnerRun]) ∧
    (w.uvloop = UvloopProbe.available → w.pyAtLeast311 = false →
      runtimeEvents w = [Event.uvloopInstall, Event.asyncioRun]) := by
  have happ := app_normal_eq inv w cfg hs hw hc
  refine ⟨by rw [happ]; rfl, ?_, ?_, ?_, ?_, ?_, ?_⟩
  · rw [happ]
    simp only [runWithConfig, List.countP_append]
    rw [countP_preEvents inv w _ (fun _ => rfl) rfl rfl rfl
        (fun _ => rfl) rfl,
      countP_debugConfigEvents w _ rfl,
      countP_terminalEvents inv w _ (fun _ _ _ => rfl),
      countP_seedEvents inv w cfg _ (fun _ _ _ => rfl),
      countP_runtimeEvents_isRunCall w hprobe]
    simp [Event.isRunCall]
  · simp only [List.countP_append]
    rw [countP_preEvents inv w _ (fun _ => rfl) rfl rfl rfl
        (fun _ => rfl) rfl,
      countP_debugConfigEvents w _ rfl,
      countP_terminalEvents inv w _ (fun _ _ _ => rfl),
      countP_seedEvents inv w cfg _ (fun _ _ _ => rfl)]
    simp [Event.isRuntimeStart]
  · rw [happ]
    exact runtimeOutcome_returned w hprobe
  · intro hu
    unfold runtimeEvents
    rw [hu]
  · intro hu hpy
    unfold runtimeEvents
    rw [hu, hpy]
    rfl
  · intro hu hpy
    unfold runtimeEvents
    rw [hu, hpy]
    rfl

/-- Witness for C5 at the uvloop-with-old-Python world: `uvloop.install()`
then `asyncio.run`, and `run()` is driven exactly once. -/
theorem c5_runtime_selection_witness :
    (app invBase wUvloopOld).events.countP Event.isRunCall = 1 ∧
    runtimeEvents wUvloopOld = [Event.uvloopInstall, Event.asyncioRun] := by
  have h := c5_runtime_selection invBase wUvloopOld default_config rfl rfl
    rfl (fun _ h => UvloopProbe.noConfusion h)
  exact ⟨h.2.1, h.2.2.2.2.2.2 rfl rfl⟩

/-- Counterexample to C5 as stated: on a normal-run invocation (no signup,
no welcome, config resolves) whose uvloop probe raises a non-`ImportError`
exception, none of the three runtime-startup branches executes and `run()`
is driven zero times, not exactly once. -/
theorem c5_runtime_selection_counterexample :
    invBase.signup = false ∧ invBase.welcome = false ∧
    usedConfig invBase wOtherFailure = some default_config ∧
    (app invBase wOtherFailure).events.countP Event.isRunCall = 0 ∧
    (app invBase wOtherFailure).events.countP Event.isRuntimeStart = 0 ∧
    (app invBase wOtherFailure).outcome = Outcome.raised "boom" := by
  decide

/-- Counterexample to C6 as stated: `cli.py` catches only `ImportError`
around `import uvloop`, so a probe failure of any other kind propagates out
of the entry point instead of falling through to `asyncio.run`. -/
theorem c6_probe_failure_counterexample :
    (app invBase wOtherFailure).outcome = Outcome.raised "boom" ∧
    Event.asyncioRun ∉ (app invBase wOtherFailure).events ∧
    Event.runnerRun ∉ (app invBase wOtherFailure).events := by
  decide

/-- Claim C6 (amended): an `ImportError` raised by the uvloop probe is
absorbed silently — control falls through to the standard `asyncio.run`
entry point, the call returns normally, and no error output is produced.
(A non-`ImportError` exception from the probe is not absorbed.) -/
theorem c6_import_error_absorbed (inv : Invocation) (w : World)
    (cfg : ConfigDocument) (hs : inv.signup = false)
    (hw : inv.welcome = false) (hc : usedConfig inv w = some cfg)
    (hprobe : w.uvloop = UvloopProbe.importError) :
    (app inv w).outcome = Outcome.returned ∧
    Event.asyncioRun ∈ (app inv w).events ∧
    (app inv w).events.countP Event.isErrorOutput = 0 := by
  have happ := app_normal_eq inv w cfg hs hw hc
  have hrt : runtimeEvents w = [Event.asyncioRun] := by
    unfold runtimeEvents
    rw [hprobe]
  refine ⟨?_, ?_, ?_⟩
  · rw [happ]
    show runtimeOutcome w = Outcome.returned
    unfold runtimeOutcome
    rw [hprobe]
  · rw [happ]
    simp only [runWithConfig, hrt]
    simp
  · rw [happ]
    simp only [runWithConfig, List.countP_append]
    rw [countP_preEvents inv w _ (fun _ => rfl) rfl rfl rfl
        (fun _ => rfl) rfl,
      countP_debugConfigEvents w _ rfl,
      countP_terminalEvents inv w _ (fun _ _ _ => rfl),
      countP_seedEvents inv w cfg _ (fun _ _ _ => rfl),
      countP_runtimeEvents w _ rfl rfl rfl]
    simp [Event.isErrorOutput]

/-- Witness for the amended C6 at the uvloop-absent world. -/
theorem c6_import_error_absorbed_witness :
    (app invBase wBase).outcome = Outcome.returned ∧
    Event.asyncioRun ∈ (app invBase wBase).events ∧
    (app invBase wBase).events.countP Event.isErrorOutput = 0 :=
  c6_import_error_absorbed invBase wBase default_config rfl rfl rfl rfl

/-- The characters of a lower-cased string are the lower-cased characters. -/
theorem strToLower_data (s : String) :
    (strToLower s).data = s.data.map Char.toLower := rfl

/-- Lower-casing preserves non-emptiness. -/
theorem strToLower_ne_empty {s : String} (h : s ≠ "") :
    strToLower s ≠ "" := by
  intro he
  apply h
  have hd := congrArg String.data he
  rw [strToLower_data] at hd
  have hnil : s.data = [] := List.map_eq_nil_iff.mp hd
  cases s with
  | mk d =>
      cases hnil
      rfl

/-- When the terminal flag is set, the terminal-registration events are the
single `add_terminal` call of line 145-147 of `cli.py`. -/
theorem terminalEvents_of_terminal (inv : Invocation) (w : World)
    (ht : inv.terminal = true) :
    terminalEvents inv w =
      [Event.addTerminal "Terminal" (terminalShell w) (terminalSlug w)] := by
  unfold terminalEvents
  rw [if_pos ht]

/-- Claim C7: on every normal-run invocation with the terminal flag set,
exactly one interactive-terminal session is registered; its shell command is
the `SHELL` environment variable with the fixed default `"bin/sh"` when that
variable is absent, and its identifier is the freshly generated identity
word lowercased — hence non-empty and free of upper-case characters. -/
theorem c7_terminal_session_shape (inv : Invocation) (w : World)
    (cfg : ConfigDocument) (hs : inv.signup = false)
    (hw : inv.welcome = false) (hc : usedConfig inv w = some cfg)
    (ht : inv.terminal = true) (hid : w.identityWord ≠ "") :
    (app inv w).events.countP Event.isTerminalReg = 1 ∧
    Event.addTerminal "Terminal" (terminalShell w) (terminalSlug w) ∈
      (app inv w).events ∧
    (∀ s, w.shellVar = some s → terminalShell w = s) ∧
    (w.shellVar = none → terminalShell w = "bin/sh") ∧
    terminalSlug w = strToLower w.identityWord ∧
    terminalSlug w ≠ "" ∧
    (∀ c ∈ (terminalSlug w).data, c.isUpper = false) := by
  have happ := app_normal_eq inv w cfg hs hw hc
  refine ⟨?_, ?_, ?_, ?_, rfl, ?_, ?_⟩
  · rw [happ]
    simp only [runWithConfig, List.countP_append]
    rw [countP_preEvents inv w _ (fun _ => rfl) rfl rfl rfl
        (fun _ => rfl) rfl,
      countP_debugConfigEvents w _ rfl,
      countP_seedEvents inv w cfg _ (fun _ _ _ => rfl),
      countP_runtimeEvents w _ rfl rfl rfl,
      terminalEvents_of_terminal inv w ht]
    simp [Event.isTerminalReg]
  · rw [happ]
    simp only [runWithConfig, terminalEvents_of_terminal inv w ht]
    simp
  · intro s hsv
    unfold terminalShell
    rw [hsv]
    rfl
  · intro hsv
    unfold terminalShell
    rw [hsv]
    rfl
  · exact strToLower_ne_empty hid
  · intro c hcm
    unfold terminalSlug at hcm
    rw [strToLower_data] at hcm
    obtain ⟨a, _, rfl⟩ := List.mem_map.mp hcm
    exact char_toLower_not_upper a

/-- Witness for C7 at the concrete `--terminal` invocation: one terminal
session with shell `"bin/sh"` and identifier `"abc"`. -/
theorem c7_terminal_session_shape_witness :
    (app invTerminal wBase).events.countP Event.isTerminalReg = 1 ∧
    Event.addTerminal "Terminal" (terminalShell wBase)
      (terminalSlug wBase) ∈ (app invTerminal wBase).events ∧
    terminalSlug wBase ≠ "" := by
  have h := c7_terminal_session_shape invTerminal wBase default_config
    rfl rfl rfl rfl (by decide)
  exact ⟨h.1, h.2.1, h.2.2.2.2.2.1⟩

/-- Claim C8: the CLI option layer accepts an environment name exactly when
it is a key of the registry, and for every accepted name resolution returns
a descriptor, deterministically, drawn from the registry. -/
theorem c8_environment_resolution (name : String) :
    (cliAcceptsEnvironment name = true ↔
      name ∈ ENVIRONMENTS.map Prod.fst) ∧
    (cliAcceptsEnvironment name = true →
      (get_environment name).isSome = true) ∧
    (∀ d, get_environment name = some d →
      ∃ e ∈ ENVIRONMENTS, e.fst = name ∧ e.snd = d) ∧
    (∀ d1 d2, get_environment name = some d1 →
      get_environment name = some d2 → d1 = d2) := by
  have hiff : cliAcceptsEnvironment name = true ↔
      name ∈ ENVIRONMENTS.map Prod.fst := by
    unfold cliAcceptsEnvironment
    rw [List.any_eq_true]
    constructor
    · rintro ⟨e, he, heq⟩
      exact List.mem_map.mpr ⟨e, he, beq_iff_eq.mp heq⟩
    · intro hm
      obtain ⟨e, he, heq⟩ := List.mem_map.mp hm
      exact ⟨e, he, beq_iff_eq.mpr heq⟩
  refine ⟨hiff, ?_, ?_, ?_⟩
  · intro h
    have hm := hiff.mp h
    simp only [ENVIRONMENTS, List.map_cons, List.map_nil, List.mem_cons,
      List.not_mem_nil, or_false] at hm
    rcases hm with rfl | rfl | rfl <;> decide
  · intro d hd
    unfold get_environment at hd
    cases hfind : List.find? (fun e => e.fst == name) ENVIRONMENTS with
    | none =>
        rw [hfind] at hd
        exact Option.noConfusion hd
    | some e =>
        rw [hfind] at hd
        have hp := List.find?_some hfind
        exact ⟨e, List.mem_of_find?_eq_some hfind,
          beq_iff_eq.mp hp, Option.some.inj hd⟩
  · intro d1 d2 h1 h2
    rw [h1] at h2
    exact Option.some.injEq d1 d2 ▸ h2

/-- Witness for C8 at the name `"prod"`. -/
theorem c8_environment_resolution_witness :
    cliAcceptsEnvironment "prod" = true ∧
    (get_environment "prod").isSome = true :=
  ⟨by decide, (c8_environment_resolution "prod").2.1 (by decide)⟩

/-- Claim C9 (implicit): with the terminal flag set and `SHELL` absent from
the environment, the registered terminal session's shell command is the
literal `"bin/sh"` — a relative path, not the absolute `"/bin/sh"`. -/
theorem c9_default_shell_is_relative (inv : Invocation) (w : World)
    (cfg : ConfigDocument) (hs : inv.signup = false)
    (hw : inv.welcome = false) (hc : usedConfig inv w = some cfg)
    (ht : inv.terminal = true) (hsh : w.shellVar = none) :
    terminalShell w = "bin/sh" ∧
    Event.addTerminal "Terminal" "bin/sh" (terminalSlug w) ∈
      (app inv w).events ∧
    terminalShell w ≠ "/bin/sh" ∧
    (terminalShell w).data.head? ≠ some (Char.ofNat 47) := by
  have hshell : terminalShell w = "bin/sh" := by
    unfold terminalShell
    rw [hsh]
    rfl
  refine ⟨hshell, ?_, ?_, ?_⟩
  · rw [app_normal_eq inv w cfg hs hw hc]
    simp only [runWithConfig, terminalEvents_of_terminal inv w ht, hshell]
    simp
  · rw [hshell]
    decide
  · rw [hshell]
    decide

/-- Witness for C9 at the concrete `--terminal` invocation with `SHELL`
unset. -/
theorem c9_default_shell_is_relative_witness :
    terminalShell wBase = "bin/sh" ∧
    Event.addTerminal "Terminal" "bin/sh" (terminalSlug wBase) ∈
      (app invTerminal wBase).events := by
  have h := c9_default_shell_is_relative invTerminal wBase default_config
    rfl rfl rfl rfl rfl
  exact ⟨h.1, h.2.1⟩

/-- Claim C10 (implicit): the default example application session injected
when no sessions are registered always has label `"Welcome"`, launch command
`"textual-web --welcome"` and identifier `"welcome"`; the identifier never
comes from the identity generator, so the seeded registration is the same
constant in every world that reaches the seeding. -/
theorem c10_default_seed_is_constant (inv : Invocation) (w : World)
    (cfg : ConfigDocument) (hs : inv.signup = false)
    (hw : inv.welcome = false) (hc : usedConfig inv w = some cfg)
    (hz : (clientAfterTerminal inv w cfg).app_count = 0) :
    Event.addApp "Welcome" "textual-web --welcome" "welcome" ∈
      (app inv w).events ∧
    (finalClient inv w cfg).apps.getLast? =
      some ⟨SessionKind.application, "Welcome", "textual-web --welcome",
        "welcome"⟩ ∧
    (∀ (inv2 : Invocation) (w2 : World) (cfg2 : ConfigDocument),
      (clientAfterTerminal inv2 w2 cfg2).app_count = 0 →
      seedEvents inv2 w2 cfg2 = seedEvents inv w cfg) := by
  refine ⟨?_, ?_, ?_⟩
  · rw [app_normal_eq inv w cfg hs hw hc]
    simp only [runWithConfig, seedEvents_of_zero inv w cfg hz]
    simp
  · unfold finalClient
    rw [if_pos hz]
    show ((clientAfterTerminal inv w cfg).apps ++
        [(⟨SessionKind.application, "Welcome", "textual-web --welcome",
          "welcome"⟩ : SessionRegistration)]).getLast? =
      some ⟨SessionKind.application, "Welcome", "textual-web --welcome",
        "welcome"⟩
    rw [List.getLast?_concat]
  · intro inv2 w2 cfg2 hz2
    rw [seedEvents_of_zero inv2 w2 cfg2 hz2, seedEvents_of_zero inv w cfg hz]

/-- Witness for C10 at the flagless invocation: the seeded session is the
`"welcome"` constant. -/
theorem c10_default_seed_is_constant_witness :
    Event.addApp "Welcome" "textual-web --welcome" "welcome" ∈
      (app invBase wBase).events ∧
    (finalClient invBase wBase default_config).apps.getLast? =
      some ⟨SessionKind.application, "Welcome", "textual-web --welcome",
        "welcome"⟩ := by
  have h := c10_default_seed_is_constant invBase wBase default_config rfl
    rfl rfl (by decide)
  exact ⟨h.1, h.2.1⟩
